import Mathlib

/-!
Shallow embedding of `src/app.py` (PlexRelay): the cache-refresh cycle,
the detail fetcher, the M3U playlist generator, the XMLTV guide generator,
and the helpers they use (time formatting, SHA-256 channel identifiers,
Python-style string rendering of integers).  HTTP traffic is modelled as
explicit result values handed to the embedded functions; the process-global
mutable state is modelled as an explicit `BridgeState` record, and the
sequence of intermediate states a refresh publishes is modelled as a list.
-/

set_option maxRecDepth 100000

namespace PlexRelay

/-- Python value as it reaches `format_xmltv_time`: the result of
`stream.get('starts_at')` is either absent (`None`), an integer, or a
string. -/
inductive PyVal where
  | vnone
  | vint (n : Int)
  | vstr (s : String)
deriving DecidableEq

/-- Python truthiness for the values of `PyVal`: `None`, `0` and `""` are
falsy, everything else truthy (used by `if not unix_timestamp` on line 56). -/
def pyTruthy : PyVal → Bool
  | PyVal.vnone => false
  | PyVal.vint n => !(n == 0)
  | PyVal.vstr s => !(s == "")

/-- ASCII digit test. -/
def isDigitCh (c : Char) : Bool := '0' ≤ c && c ≤ '9'

/-- Numeric value of an ASCII digit character. -/
def digitValCh (c : Char) : Nat := c.toNat - 48

/-- Digit body of a Python integer literal after the first digit: a run of
digits where a single underscore may separate digit groups (`1_0` parses,
`1__0`, `1_` do not), accumulating the value. -/
def digitsVal : List Char → Nat → Option Nat
  | [], acc => some acc
  | c :: rest, acc =>
    if isDigitCh c then digitsVal rest (acc * 10 + digitValCh c)
    else if c = '_' then
      match rest with
      | c2 :: rest2 =>
          if isDigitCh c2 then digitsVal rest2 (acc * 10 + digitValCh c2)
          else none
      | [] => none
    else none

/-- Unsigned digit string: nonempty, starts with a digit. -/
def parseUnsigned (cs : List Char) : Option Nat :=
  match cs with
  | c :: _ => if isDigitCh c then digitsVal cs 0 else none
  | [] => none

/-- Python whitespace stripped by `int(str)`: the ASCII cases. -/
def isPyWs (c : Char) : Bool := c == ' ' || c == '\t' || c == '\n' || c == '\r'

/-- Embeds Python `int(s)` for a string argument (ASCII digits): strip
whitespace, optional sign, digit body with single underscores between digit
groups.  `none` models the `ValueError` the source catches on line 63. -/
def parsePyInt (s : String) : Option Int :=
  let cs := ((s.data.dropWhile isPyWs).reverse.dropWhile isPyWs).reverse
  match cs with
  | '+' :: rest => (parseUnsigned rest).map Int.ofNat
  | '-' :: rest => (parseUnsigned rest).map (fun n => -(Int.ofNat n))
  | rest => (parseUnsigned rest).map Int.ofNat

/-- Embeds Python `int(x)` on the values `format_xmltv_time` can receive:
an int is itself, a string is parsed, `None` raises (modelled `none`). -/
def pyToInt : PyVal → Option Int
  | PyVal.vnone => none
  | PyVal.vint n => some n
  | PyVal.vstr s => parsePyInt s

/-- Least epoch second `datetime.fromtimestamp(_, tz=timezone.utc)` accepts
(0001-01-01T00:00:00Z); below it the call raises, which line 63 catches. -/
def MIN_TS : Int := -62135596800

/-- Greatest epoch second `datetime.fromtimestamp` accepts
(9999-12-31T23:59:59Z). -/
def MAX_TS : Int := 253402300799

/-- Left-pad a natural number with zeros to the given width (strftime
`%m`, `%d`, `%H`, `%M`, `%S` behaviour with width 2). -/
def padNat (width : Nat) (n : Nat) : String :=
  let s := toString n
  if s.length < width then String.mk (List.replicate (width - s.length) '0') ++ s else s

/-- Civil date (year, month, day) of a day count relative to 1970-01-01,
following the standard Gregorian `civil_from_days` algorithm (what
`datetime.fromtimestamp` computes for the date part). -/
def civilFromDays (z0 : Int) : Int × Nat × Nat :=
  let z := z0 + 719468
  let era := Int.fdiv z 146097
  let doe := z - era * 146097
  let yoe := Int.fdiv (doe - Int.fdiv doe 1460 + Int.fdiv doe 36524 - Int.fdiv doe 146096) 365
  let y := yoe + era * 400
  let doy := doe - (365 * yoe + Int.fdiv yoe 4 - Int.fdiv yoe 100)
  let mp := Int.fdiv (5 * doy + 2) 153
  let d := doy - Int.fdiv (153 * mp + 2) 5 + 1
  let m := mp + (if mp < 10 then 3 else -9)
  (y + (if m ≤ 2 then 1 else 0), m.toNat, d.toNat)

/-- Embeds `datetime.fromtimestamp(n, tz=timezone.utc).strftime('%Y%m%d%H%M%S +0000')`
for an in-range epoch value: UTC calendar fields, two-digit-padded except the
year (`%Y` prints the year number without padding, four digits for years
1000–9999). -/
def fmtEpoch (t : Int) : String :=
  let days := Int.fdiv t 86400
  let sod := (t - 86400 * days).toNat
  let ymd := civilFromDays days
  (toString ymd.1 ++ padNat 2 ymd.2.1 ++ padNat 2 ymd.2.2 ++
    padNat 2 (sod / 3600) ++ padNat 2 (sod % 3600 / 60) ++ padNat 2 (sod % 60)) ++ " +0000"

/-- Embeds `format_xmltv_time` (src/app.py lines 54-66): falsy input returns
`""`; otherwise `int(...)` then `fromtimestamp(...).strftime(...)`, any
conversion error caught and degraded to `""`. -/
def format_xmltv_time (v : PyVal) : String :=
  if pyTruthy v = false then ""
  else
    match pyToInt v with
    | none => ""
    | some n => if MIN_TS ≤ n ∧ n ≤ MAX_TS then fmtEpoch n else ""

example : fmtEpoch 1700000000 = "20231114221320 +0000" := by decide
example : fmtEpoch 1700010000 = "20231115010000 +0000" := by decide
example : fmtEpoch 0 = "19700101000000 +0000" := by decide
example : fmtEpoch (-1) = "19691231235959 +0000" := by decide
example : format_xmltv_time (PyVal.vint 0) = "" := by decide
example : format_xmltv_time (PyVal.vstr "  1700000000 ") = "20231114221320 +0000" := by decide
example : format_xmltv_time (PyVal.vstr "1_0") = "19700101000010 +0000" := by decide
example : format_xmltv_time (PyVal.vstr "3.5") = "" := by decide

/-! SHA-256 over byte lists, as `hashlib.sha256` computes it.  Words are
naturals reduced mod 2^32 after every operation. -/

/-- Reduce to a 32-bit word. -/
def w32 (n : Nat) : Nat := n % 4294967296

/-- Right-rotation of a 32-bit word by `k` places. -/
def rotr (k n : Nat) : Nat := w32 ((n >>> k) ||| (n <<< (32 - k)))

/-- Bitwise complement within 32 bits. -/
def bnot32 (n : Nat) : Nat := n ^^^ 4294967295

/-- SHA-256 small sigma 0. -/
def ssig0 (x : Nat) : Nat := (rotr 7 x) ^^^ (rotr 18 x) ^^^ (x >>> 3)

/-- SHA-256 small sigma 1. -/
def ssig1 (x : Nat) : Nat := (rotr 17 x) ^^^ (rotr 19 x) ^^^ (x >>> 10)

/-- SHA-256 big sigma 0. -/
def bsig0 (x : Nat) : Nat := (rotr 2 x) ^^^ (rotr 13 x) ^^^ (rotr 22 x)

/-- SHA-256 big sigma 1. -/
def bsig1 (x : Nat) : Nat := (rotr 6 x) ^^^ (rotr 11 x) ^^^ (rotr 25 x)

/-- SHA-256 choose function. -/
def shaCh (x y z : Nat) : Nat := (x &&& y) ^^^ (bnot32 x &&& z)

/-- SHA-256 majority function. -/
def shaMaj (x y z : Nat) : Nat := (x &&& y) ^^^ (x &&& z) ^^^ (y &&& z)

/-- SHA-256 round constants. -/
def shaK : List Nat := [
  1116352408, 1899447441, 3049323471, 3921009573, 961987163, 1508970993, 2453635748, 2870763221,
  3624381080, 310598401, 607225278, 1426881987, 1925078388, 2162078206, 2614888103, 3248222580,
  3835390401, 4022224774, 264347078, 604807628, 770255983, 1249150122, 1555081692, 1996064986,
  2554220882, 2821834349, 2952996808, 3210313671, 3336571891, 3584528711, 113926993, 338241895,
  666307205, 773529912, 1294757372, 1396182291, 1695183700, 1986661051, 2177026350, 2456956037,
  2730485921, 2820302411, 3259730800, 3345764771, 3516065817, 3600352804, 4094571909, 275423344,
  430227734, 506948616, 659060556, 883997877, 958139571, 1322822218, 1537002063, 1747873779,
  1955562222, 2024104815, 2227730452, 2361852424, 2428436474, 2756734187, 3204031479, 3329325298]

/-- SHA-256 initial hash value. -/
def shaH0 : List Nat :=
  [1779033703, 3144134277, 1013904242, 2773480762, 1359893119, 2600822924, 528734635, 1541459225]

/-- Next message-schedule word at index `i` given the schedule so far. -/
def schedStep (w : List Nat) (i : Nat) : Nat :=
  w32 (ssig1 (w.getD (i - 2) 0) + w.getD (i - 7) 0 + ssig0 (w.getD (i - 15) 0) + w.getD (i - 16) 0)

/-- Extend a 16-word block schedule by `n` further words. -/
def buildW (base : List Nat) : Nat → List Nat
  | 0 => base
  | n + 1 =>
    let w := buildW base n
    w ++ [schedStep w (base.length + n)]

/-- One SHA-256 compression round on the eight-word working state. -/
def compressStep (k wi : Nat) (st : List Nat) : List Nat :=
  let a := st.getD 0 0
  let b := st.getD 1 0
  let c := st.getD 2 0
  let d := st.getD 3 0
  let e := st.getD 4 0
  let f := st.getD 5 0
  let g := st.getD 6 0
  let h := st.getD 7 0
  let t1 := w32 (h + bsig1 e + shaCh e f g + k + wi)
  let t2 := w32 (bsig0 a + shaMaj a b c)
  [w32 (t1 + t2), a, b, c, w32 (d + t1), e, f, g]

/-- Big-endian 32-bit word from (up to) four bytes. -/
def word32OfBytes (b : List Nat) : Nat := b.foldl (fun acc x => acc * 256 + x) 0

/-- The sixteen big-endian words of a 64-byte block. -/
def wordsOfBlock (b : List Nat) : List Nat :=
  (List.range 16).map (fun i => word32OfBytes ((b.drop (4 * i)).take 4))

/-- Split a byte list into 64-byte blocks (structural recursion on a fuel
argument so the kernel can evaluate it; the outer call supplies enough
fuel). -/
def chunks64Aux : Nat → List Nat → List (List Nat)
  | 0, _ => []
  | _, [] => []
  | fuel + 1, x :: xs => ((x :: xs).take 64) :: chunks64Aux fuel ((x :: xs).drop 64)

/-- Split a byte list into 64-byte blocks. -/
def chunks64 (l : List Nat) : List (List Nat) := chunks64Aux (l.length + 1) l

/-- SHA-256 message padding: `0x80`, zeros to 56 mod 64, then the bit length
as eight big-endian bytes. -/
def sha256Pad (msg : List Nat) : List Nat :=
  let len := msg.length
  let zeros := (119 - len % 64) % 64
  let lenBits := len * 8
  msg ++ 128 :: List.replicate zeros 0 ++
    (List.range 8).map (fun i => (lenBits >>> (8 * (7 - i))) % 256)

/-- Digest one padded block into the running eight-word hash state. -/
def sha256Block (hs : List Nat) (block : List Nat) : List Nat :=
  let ws := buildW (wordsOfBlock block) 48
  let st := (shaK.zip ws).foldl (fun st p => compressStep p.1 p.2 st) hs
  List.zipWith (fun h v => w32 (h + v)) hs st

/-- The eight digest words of the SHA-256 of a byte list. -/
def sha256Words (msg : List Nat) : List Nat :=
  (chunks64 (sha256Pad msg)).foldl sha256Block shaH0

/-- Hexadecimal digit character (lowercase), as `hexdigest` prints. -/
def hexDigCh (n : Nat) : Char := if n < 10 then Char.ofNat (48 + n) else Char.ofNat (87 + n)

/-- Eight hex characters of one 32-bit word, most significant first. -/
def hexOfWord (w : Nat) : List Char :=
  [hexDigCh (w / 268435456 % 16), hexDigCh (w / 16777216 % 16),
   hexDigCh (w / 1048576 % 16), hexDigCh (w / 65536 % 16),
   hexDigCh (w / 4096 % 16), hexDigCh (w / 256 % 16),
   hexDigCh (w / 16 % 16), hexDigCh (w % 16)]

/-- Embeds `hashlib.sha256(...).hexdigest()`: the 64-character lowercase hex
string of the digest words. -/
def hexdigest (ws : List Nat) : String :=
  String.mk (ws.foldr (fun w acc => hexOfWord w ++ acc) [])

/-- Numeric value of a hex character (lowercase letters suffice for
`hexdigest` output). -/
def hexValCh (c : Char) : Nat :=
  if isDigitCh c then c.toNat - 48 else c.toNat - 87

/-- Embeds Python `int(s, 16)` on a well-formed lowercase hex string. -/
def intOfHex (s : String) : Nat := s.data.foldl (fun acc c => acc * 16 + hexValCh c) 0

/-- UTF-8 bytes of one code point (what Python `str.encode()` emits per
character). -/
def utf8Char (c : Nat) : List Nat :=
  if c < 128 then [c]
  else if c < 2048 then [192 + c / 64, 128 + c % 64]
  else if c < 65536 then [224 + c / 4096, 128 + c / 64 % 64, 128 + c % 64]
  else [240 + c / 262144, 128 + c / 4096 % 64, 128 + c / 64 % 64, 128 + c % 64]

/-- Embeds Python `s.encode()`: UTF-8 bytes of a string. -/
def utf8Bytes (s : String) : List Nat :=
  s.data.foldr (fun c acc => utf8Char c.toNat ++ acc) []

example : hexdigest (sha256Words (utf8Bytes "Lakers vs Celtics_1700000000")) =
    "7636f4d482261a76f57931dcaaf869c800f2e5cea4e92a69082e819226716064" := by decide
example : intOfHex (hexdigest (sha256Words (utf8Bytes "A_0"))) % 10 ^ 10 = 5850289721 := by decide

/-! Python `str()` on integers, and the data model of the cached catalog. -/

/-- ASCII character of one decimal digit. -/
def digitCh (n : Nat) : Char := Char.ofNat (48 + n)

/-- Decimal digit characters of a natural number, most significant first
(structural recursion on fuel; the outer call supplies enough). -/
def natDigitsAux : Nat → Nat → List Char
  | 0, _ => []
  | fuel + 1, n =>
    if n < 10 then [digitCh n] else natDigitsAux fuel (n / 10) ++ [digitCh (n % 10)]

/-- Decimal digit characters of a natural number. -/
def natDigits (n : Nat) : List Char := natDigitsAux (n + 1) n

/-- Embeds Python `str()` on an integer: decimal digits, `-`-prefixed when
negative. -/
def pyIntStr (n : Int) : String :=
  if n < 0 then "-" ++ String.mk (natDigits (-n).toNat) else String.mk (natDigits n.toNat)

/-- Embeds Python `str(stream_id)` where `stream_id` came from
`stream.get('id')`: an absent key is `None` and prints as `"None"`. -/
def pyStrOfOptId : Option Int → String
  | some n => pyIntStr n
  | none => "None"

example : pyIntStr 1700000000 = "1700000000" := by decide
example : pyIntStr (-35) = "-35" := by decide
example : pyIntStr 0 = "0" := by decide

/-- Stream object of the catalog JSON, with the keys the source reads.
`none` in an `Option` field models an absent key; the `String` fields model
`stream.get(key, '')`, whose default already merges absence with `""`. -/
structure PStream where
  id : Option Int
  name : String
  poster : String
  category_name : Option String
  tag : String
  starts_at : Option Int
  ends_at : Option Int
deriving DecidableEq

/-- Category object of the catalog JSON: a `category` name (key may be
absent) and its list of streams. -/
structure PCategory where
  category : Option String
  streams : List PStream
deriving DecidableEq

/-- The parsed catalog response `{success: ..., streams: [...]}` that
`fetch_and_cache_data` stores whole into `cached_data`. -/
structure CatalogData where
  success : Bool
  streams : List PCategory
deriving DecidableEq

/-- The process-global mutable state the source keeps in module globals:
`cached_data`, `cached_mpegts_urls` (insertion-ordered string-keyed dict)
and `last_fetch_time`. -/
structure BridgeState where
  cached_data : Option CatalogData
  cached_mpegts_urls : List (String × String)
  last_fetch_time : Int
deriving DecidableEq

/-- What the generators read: a cached catalog's category list plus the
detail-URL cache (one Cache Snapshot). -/
structure Snapshot where
  categories : List PCategory
  cached_mpegts_urls : List (String × String)
deriving DecidableEq

/-- Python `dict.get`: the value under a key, if present. -/
def dictGet (k : String) (d : List (String × String)) : Option String :=
  (d.find? (fun p => p.1 == k)).map (fun p => p.2)

/-- Python `d[k] = v` on an insertion-ordered dict: replace in place if the
key exists, else append. -/
def dictInsert (k v : String) (d : List (String × String)) : List (String × String) :=
  if d.any (fun p => p.1 == k) then d.map (fun p => if p.1 == k then (k, v) else p)
  else d ++ [(k, v)]

/-- Concatenation of the images of a list's elements (the iteration pattern
`for category in ...: for stream in ...` flattened). -/
def concatMap (f : α → List β) : List α → List β
  | [] => []
  | x :: xs => f x ++ concatMap f xs

/-- Embeds `stream.get('starts_at') or '0'` as rendered into the f-string
`f"{name}_{start_time}"` on lines 278-279 and 331-332: a missing or zero
start time prints as `0`, any other integer as its decimal string. -/
def startTimeOrZero : Option Int → String
  | some n => if n = 0 then "0" else pyIntStr n
  | none => "0"

/-- Embeds lines 277-280 of src/app.py (`generate_m3u`):
`tvg_id = str(int(hashlib.sha256(f"{name}_{start_time}".encode()).hexdigest(), 16) % 10**10)`. -/
def m3uTvgId (name : String) (starts_at : Option Int) : String :=
  let base_string := name ++ "_" ++ startTimeOrZero starts_at
  pyIntStr (Int.ofNat (intOfHex (hexdigest (sha256Words (utf8Bytes base_string))) % 10 ^ 10))

/-- Embeds lines 330-333 of src/app.py (`generate_xmltv`):
`channel_id = str(int(hashlib.sha256(f"{name}_{start_time}".encode()).hexdigest(), 16) % 10**10)`. -/
def xmltvChannelId (name : String) (starts_at : Option Int) : String :=
  let base_string := name ++ "_" ++ startTimeOrZero starts_at
  pyIntStr (Int.ofNat (intOfHex (hexdigest (sha256Words (utf8Bytes base_string))) % 10 ^ 10))

/-- Modelled from the spec's hash policy wording (section 4.2): identifier =
(unsigned 256-bit hash of `"{name}_{start_time_or_0}"` interpreted as a big
integer) mod 10^10, rendered as a decimal string.  The digest is taken as a
number directly rather than through its hex spelling. -/
def specChannelIdentifier (name : String) (starts_at : Option Int) : String :=
  let ws := sha256Words (utf8Bytes (name ++ "_" ++ startTimeOrZero starts_at))
  pyIntStr (Int.ofNat (ws.foldl (fun acc w => acc * 4294967296 + w) 0 % 10 ^ 10))

/-- Embeds `name.replace(' ', '_').lower()` (lines 281, 334); the lowering
is ASCII, which is all the emptiness test the source applies to it can
see. -/
def slugify (name : String) : String :=
  String.mk (name.data.map (fun c => if c = ' ' then '_' else c.toLower))

example : m3uTvgId "Lakers vs Celtics" (some 1700000000) = "7782732900" := by decide

/-! The M3U playlist generator (src/app.py lines 259-304). -/

/-- The `#EXTINF` line of lines 293-296, with its four quoted attributes and
the display-name suffix. -/
def extinfLine (tvg_id stream_name poster_url category_name : String) : String :=
  "#EXTINF:-1 tvg-id=\"" ++ tvg_id ++ "\" tvg-name=\"" ++ stream_name ++
    "\" tvg-logo=\"" ++ poster_url ++ "\" group-title=\"" ++ category_name ++
    "\"," ++ stream_name

/-- Embeds the per-stream body of `generate_m3u`'s loop (lines 276-301):
the playlist lines one stream contributes.  `category_name` is the value of
`category.get('category', 'Unknown Category')` from line 274. -/
def m3uStreamLines (urls : List (String × String)) (category_name : String)
    (s : PStream) : List String :=
  let name := s.name
  let tvg_id := m3uTvgId name s.starts_at
  if slugify name = "" then []
  else
    let stream_name := if name ≠ "" then name else "Stream " ++ tvg_id
    let mpegts_url := match s.id with
      | some n => if n ≠ 0 then dictGet (pyIntStr n) urls else none
      | none => none
    match mpegts_url with
    | some url =>
        if url ≠ "" then [extinfLine tvg_id stream_name s.poster category_name, url]
        else []
    | none => []

/-- Embeds `generate_m3u` (lines 269-304) as a function of the Cache
Snapshot: the list of playlist lines, starting with `#EXTM3U`. -/
def generate_m3u (snap : Snapshot) : List String :=
  "#EXTM3U" :: concatMap (fun cat =>
      let category_name := cat.category.getD "Unknown Category"
      concatMap (m3uStreamLines snap.cached_mpegts_urls category_name) cat.streams)
    snap.categories

/-! The XMLTV guide generator (src/app.py lines 306-383).  The XML tree is
modelled as the list of `<channel>` and `<programme>` records appended to
the `<tv>` root, in emission order, with the attributes and child elements
the source sets. -/

/-- One record appended under the `<tv>` root. -/
inductive XmlItem where
  | channel (id displayName : String) (icon : Option String)
  | programme (start stop channel title desc : String) (icon : Option String)
      (category : String)
deriving DecidableEq

/-- Embeds line 341 of `generate_xmltv`:
`category_name = stream.get('category_name', category.get('category', 'Unknown'))`,
the stream-level override falling back to the parent category's name. -/
def xmltvCategoryName (cat : PCategory) (s : PStream) : String :=
  match s.category_name with
  | some v => v
  | none => cat.category.getD "Unknown"

/-- Embeds the per-stream body of `generate_xmltv`'s loop (lines 329-375):
threads the `seen_channel_ids` set (as a list) and the emitted records. -/
def xmltvStep (cat : PCategory) (acc : List String × List XmlItem) (s : PStream) :
    List String × List XmlItem :=
  let name := s.name
  let channel_id := xmltvChannelId name s.starts_at
  if slugify name = "" then acc
  else
    let stream_name := if name ≠ "" then name else "Stream " ++ channel_id
    let poster_url := s.poster
    let category_name := xmltvCategoryName cat s
    let tag := s.tag
    let withChan :=
      if channel_id ∈ acc.1 then acc
      else (channel_id :: acc.1,
        acc.2 ++ [XmlItem.channel channel_id stream_name
          (if poster_url ≠ "" then some poster_url else none)])
    let start_time_str := format_xmltv_time (match s.starts_at with
      | some n => PyVal.vint n
      | none => PyVal.vnone)
    let end_time_str := format_xmltv_time (match s.ends_at with
      | some n => PyVal.vint n
      | none => PyVal.vnone)
    if start_time_str ≠ "" ∧ end_time_str ≠ "" then
      (withChan.1, withChan.2 ++ [XmlItem.programme start_time_str end_time_str
        channel_id stream_name
        (if tag ≠ "" then category_name ++ " - " ++ tag else category_name)
        (if poster_url ≠ "" then some poster_url else none) category_name])
    else withChan

/-- Embeds `generate_xmltv` (lines 306-383) as a function of the Cache
Snapshot: the records appended under `<tv>`, in order. -/
def generate_xmltv (snap : Snapshot) : List XmlItem :=
  (snap.categories.foldl (fun acc cat => cat.streams.foldl (xmltvStep cat) acc)
    ([], [])).2

/-! The detail fetcher `get_mpegts_url` (src/app.py lines 87-149).  The HTTP
exchange is modelled as an explicit result value; transport exceptions,
the status check done by `raise_for_status` (which raises exactly for 4xx
and 5xx), JSON-parse failure, and the response's shape are all represented. -/

/-- Parsed JSON body of a detail response.  `success` is the truthiness of
`data.get("success")`; `hasData` is the truthiness of `data.get("data")`
(false both when the key is absent and when its value is empty/falsy, the
two cases line 119's `if stream_data:` merges); `vip_mpegts` is the value of
`stream_data.get("vip_mpegts")` when the key is present. -/
structure DetailBody where
  success : Bool
  hasData : Bool
  vip_mpegts : Option String
deriving DecidableEq

/-- Outcome of the HTTP GET inside `get_mpegts_url`: a raised transport
exception, or a response with a status code and (when it parses as JSON) a
body. -/
inductive DetailFetchResult where
  | exc
  | resp (status : Nat) (body : Option DetailBody)
deriving DecidableEq

/-- Embeds `get_mpegts_url` (lines 87-149).  The first component records
whether an HTTP request is issued at all; the second is the returned value
(`none` = Python `None`).  `raise_for_status` raises exactly for statuses
400-599, so only those take the HTTPError arm; every failure path of the
source returns `None` through a `try`/`except` arm, so the embedding is
total. -/
def get_mpegts_url (auth_token : String) (result : DetailFetchResult) :
    Bool × Option String :=
  if auth_token = "" then (false, none)
  else
    (true,
      match result with
      | DetailFetchResult.exc => none
      | DetailFetchResult.resp status body =>
        if 400 ≤ status ∧ status < 600 then none
        else
          match body with
          | none => none
          | some d =>
            if d.success then
              if d.hasData then
                match d.vip_mpegts with
                | some url => if url ≠ "" then some url else none
                | none => none
              else none
            else none)

/-! The refresh cycle `fetch_and_cache_data` (src/app.py lines 152-196).
Each assignment to a module global publishes a new state to concurrent
readers, so the embedding returns the list of intermediate states in
publication order; the last one (or the initial state, when the list is
empty) is the state the cycle leaves behind.  Per-stream detail results are
supplied by an oracle `fetcher : Int → Option String` standing for
`get_mpegts_url`'s return value on each id (`get_mpegts_url` never returns
an empty string, but the truthiness re-check of line 177 is kept). -/

/-- Outcome of the catalog GET: transport exception, or a response with a
status and (when the body parses as JSON) a `CatalogData`. -/
inductive CatalogFetchResult where
  | exc
  | resp (status : Nat) (body : Option CatalogData)
deriving DecidableEq

/-- The failure discriminator of a refresh cycle: transport exception, a
status `raise_for_status` raises on (exactly 400-599), an unparseable
body, or a body whose `success` flag is falsy. -/
def catalogFetchFailed : CatalogFetchResult → Bool
  | CatalogFetchResult.exc => true
  | CatalogFetchResult.resp status body =>
    decide (400 ≤ status ∧ status < 600) ||
      (match body with
       | some d => !d.success
       | none => true)

/-- The stream ids the refresh loop calls `get_mpegts_url` on (lines
172-176): every stream id across every category whose value is truthy. -/
def detailCalls (cats : List PCategory) : List Int :=
  concatMap (fun c =>
    concatMap (fun s =>
      match s.id with
      | some n => if n ≠ 0 then [n] else []
      | none => []) c.streams) cats

/-- The key-value pairs the refresh loop inserts into the fresh
`cached_mpegts_urls` (lines 172-178), in loop order: one per truthy stream
id whose fetched URL is truthy. -/
def mpegtsInserts (fetcher : Int → Option String) (cats : List PCategory) :
    List (String × String) :=
  concatMap (fun c =>
    concatMap (fun s =>
      match s.id with
      | some n =>
        if n ≠ 0 then
          match fetcher n with
          | some url => if url ≠ "" then [(pyIntStr n, url)] else []
          | none => []
        else []
      | none => []) c.streams) cats

/-- The dict built by performing a list of inserts in order on an empty
dict. -/
def buildCache (inserts : List (String × String)) : List (String × String) :=
  inserts.foldl (fun d kv => dictInsert kv.1 kv.2 d) []

/-- States published by the insert loop: one new state per insert, each
visible to concurrent readers. -/
def insertStates (st : BridgeState) : List (String × String) → List BridgeState
  | [] => []
  | kv :: rest =>
    let st2 := { st with cached_mpegts_urls := dictInsert kv.1 kv.2 st.cached_mpegts_urls }
    st2 :: insertStates st2 rest

/-- Embeds `fetch_and_cache_data` (lines 152-196) as the sequence of states
it publishes, in order: on failure nothing is assigned (every exception is
caught after zero global writes, and a falsy `success` flag skips the
update); on success `cached_data` is assigned first, then
`last_fetch_time`, then `cached_mpegts_urls` is cleared and refilled one
insert at a time.  The best-effort disk persistence of lines 181-188
touches no global. -/
def fetchStates (st : BridgeState) (result : CatalogFetchResult)
    (fetcher : Int → Option String) (now : Int) : List BridgeState :=
  match result with
  | CatalogFetchResult.exc => []
  | CatalogFetchResult.resp status body =>
    if 400 ≤ status ∧ status < 600 then []
    else
      match body with
      | none => []
      | some data =>
        if data.success then
          let s1 := { st with cached_data := some data }
          let s2 := { s1 with last_fetch_time := now }
          let s3 := { s2 with cached_mpegts_urls := [] }
          s1 :: s2 :: s3 :: insertStates s3 (mpegtsInserts fetcher data.streams)
        else []

/-- The state a refresh cycle leaves behind: the last published state, or
the initial state when nothing was published. -/
def fetchFinal (st : BridgeState) (result : CatalogFetchResult)
    (fetcher : Int → Option String) (now : Int) : BridgeState :=
  (fetchStates st result fetcher now).foldl (fun _ s => s) st

example : get_mpegts_url "t" (DetailFetchResult.resp 999
    (some { success := true, hasData := true, vip_mpegts := some "u" })) =
    (true, some "u") := by decide
example : get_mpegts_url "t" (DetailFetchResult.resp 599
    (some { success := true, hasData := true, vip_mpegts := some "u" })) =
    (true, none) := by decide
example : catalogFetchFailed (CatalogFetchResult.resp 999
    (some { success := true, streams := [] })) = false := by decide
example : catalogFetchFailed (CatalogFetchResult.resp 599
    (some { success := true, streams := [] })) = true := by decide

/-! General lemmas about the embedded helpers. -/

theorem concatMap_mem {α β : Type} {f : α → List β} {l : List α} {x : β} :
    x ∈ concatMap f l ↔ ∃ a ∈ l, x ∈ f a := by
  induction l with
  | nil => simp [concatMap]
  | cons y ys ih =>
    simp [concatMap, ih]

theorem slugify_eq_empty_iff (name : String) : slugify name = "" ↔ name = "" := by
  cases name with
  | mk l =>
    cases l with
    | nil => simp [slugify]
    | cons c cs =>
      constructor
      · intro h
        exact absurd (congrArg String.data h) (by simp [slugify])
      · intro h
        exact absurd (congrArg String.data h) (by simp)

theorem natDigitsAux_ne_nil (fuel n : Nat) (h : fuel ≠ 0) : natDigitsAux fuel n ≠ [] := by
  cases fuel with
  | zero => exact absurd rfl h
  | succ f =>
    simp only [natDigitsAux]
    split
    · simp
    · simp

theorem natDigits_ne_zero_str {n : Nat} (h : n ≠ 0) : natDigits n ≠ ['0'] := by
  unfold natDigits
  by_cases hlt : n < 10
  · interval_cases n
    · exact absurd rfl h
    all_goals decide
  · simp only [natDigitsAux, if_neg hlt]
    intro hc
    have hlen := congrArg List.length hc
    simp at hlen
    have hnn := natDigitsAux_ne_nil n (n / 10) (by omega)
    cases hnil : natDigitsAux n (n / 10) with
    | nil => exact hnn hnil
    | cons a as => rw [hnil] at hlen; simp at hlen

theorem pyIntStr_ne_zero {n : Int} (h : n ≠ 0) : pyIntStr n ≠ "0" := by
  unfold pyIntStr
  split
  · intro hc
    have hd := congrArg String.data hc
    simp [String.ext_iff] at hd
  · intro hc
    have hd := congrArg String.data hc
    simp at hd
    exact natDigits_ne_zero_str (by omega) hd

theorem fmtEpoch_ne_empty (t : Int) : fmtEpoch t ≠ "" := by
  unfold fmtEpoch
  intro h
  have hlen := congrArg String.length h
  rw [String.length_append] at hlen
  have h6 : (" +0000").length = 6 := rfl
  have h0 : ("" : String).length = 0 := rfl
  rw [h6, h0] at hlen
  omega

theorem dictGet_mem {k v : String} {d : List (String × String)}
    (h : dictGet k d = some v) : ∃ p ∈ d, p.2 = v := by
  unfold dictGet at h
  cases hf : d.find? (fun p => p.1 == k) with
  | none => rw [hf] at h; simp at h
  | some p =>
    rw [hf] at h
    simp at h
    exact ⟨p, List.mem_of_find?_eq_some hf, h⟩

theorem mem_keys_dictInsert {m k v : String} {d : List (String × String)}
    (h : m ∈ (dictInsert k v d).map Prod.fst) : m = k ∨ m ∈ d.map Prod.fst := by
  unfold dictInsert at h
  split at h
  · right
    rcases List.mem_map.1 h with ⟨q, hq, rfl⟩
    rcases List.mem_map.1 hq with ⟨p, hp, rfl⟩
    by_cases hpk : p.1 == k
    · have hk : p.1 = k := by simpa using hpk
      rw [if_pos hpk]
      rw [← hk]
      exact List.mem_map.2 ⟨p, hp, rfl⟩
    · rw [if_neg hpk]
      exact List.mem_map.2 ⟨p, hp, rfl⟩
  · rcases List.mem_map.1 h with ⟨q, hq, rfl⟩
    rcases List.mem_append.1 hq with h1 | h2
    · right; exact List.mem_map.2 ⟨q, h1, rfl⟩
    · left; simp at h2; simp [h2]

theorem mem_keys_foldl_insert {m : String} :
    ∀ (l : List (String × String)) (d : List (String × String)),
      m ∈ (l.foldl (fun d kv => dictInsert kv.1 kv.2 d) d).map Prod.fst →
      m ∈ d.map Prod.fst ∨ m ∈ l.map Prod.fst := by
  intro l
  induction l with
  | nil => intro d h; exact Or.inl h
  | cons kv rest ih =>
    intro d h
    rcases ih (dictInsert kv.1 kv.2 d) h with h1 | h2
    · rcases mem_keys_dictInsert h1 with rfl | hm
      · right; simp
      · left; exact hm
    · right; simp [h2]

theorem mem_keys_buildCache {m : String} {l : List (String × String)}
    (h : m ∈ (buildCache l).map Prod.fst) : m ∈ l.map Prod.fst := by
  rcases mem_keys_foldl_insert l [] h with h1 | h2
  · simp at h1
  · exact h2

/-! Lemmas relating `hexdigest`/`int(s, 16)` to the digest's numeric value,
for the channel-identifier claims. -/

theorem hexValCh_hexDigCh {n : Nat} (h : n < 16) : hexValCh (hexDigCh n) = n := by
  interval_cases n <;> decide

theorem foldl_hexOfWord (w acc : Nat) (h : w < 4294967296) :
    (hexOfWord w).foldl (fun acc c => acc * 16 + hexValCh c) acc =
      acc * 4294967296 + w := by
  simp only [hexOfWord, List.foldl]
  rw [hexValCh_hexDigCh (by omega), hexValCh_hexDigCh (by omega),
    hexValCh_hexDigCh (by omega), hexValCh_hexDigCh (by omega),
    hexValCh_hexDigCh (by omega), hexValCh_hexDigCh (by omega),
    hexValCh_hexDigCh (by omega), hexValCh_hexDigCh (by omega)]
  omega

theorem intOfHex_hexdigest (ws : List Nat) (h : ∀ w ∈ ws, w < 4294967296) :
    intOfHex (hexdigest ws) = ws.foldl (fun acc w => acc * 4294967296 + w) 0 := by
  suffices H : ∀ acc, (ws.foldr (fun w acc => hexOfWord w ++ acc) []).foldl
      (fun acc c => acc * 16 + hexValCh c) acc =
      ws.foldl (fun acc w => acc * 4294967296 + w) acc by
    simpa [intOfHex, hexdigest] using H 0
  induction ws with
  | nil => intro acc; simp
  | cons w rest ih =>
    intro acc
    rw [List.foldr_cons, List.foldl_append, foldl_hexOfWord w acc (h w (by simp)),
      List.foldl_cons]
    exact ih (fun x hx => h x (by simp [hx])) _

theorem mem_zipWith_w32 {a b : List Nat} {x : Nat}
    (hx : x ∈ List.zipWith (fun h v => w32 (h + v)) a b) : x < 4294967296 := by
  induction a generalizing b with
  | nil => simp at hx
  | cons h t ih =>
    cases b with
    | nil => simp at hx
    | cons h2 t2 =>
      simp only [List.zipWith, List.mem_cons] at hx
      rcases hx with rfl | hx
      · exact Nat.mod_lt _ (by norm_num)
      · exact ih hx

theorem sha256Block_lt (hs block : List Nat) :
    ∀ w ∈ sha256Block hs block, w < 4294967296 := by
  intro w hw
  exact mem_zipWith_w32 hw

theorem sha256Words_lt (msg : List Nat) : ∀ w ∈ sha256Words msg, w < 4294967296 := by
  unfold sha256Words
  generalize chunks64 (sha256Pad msg) = blocks
  have H : ∀ (bl : List (List Nat)) (hs : List Nat),
      (∀ w ∈ hs, w < 4294967296) → ∀ w ∈ bl.foldl sha256Block hs, w < 4294967296 := by
    intro bl
    induction bl with
    | nil => intro hs h; simpa using h
    | cons b bs ih => intro hs h; exact ih _ (sha256Block_lt hs b)
  exact H blocks shaH0 (by decide)

/-! Channel-record counting for the guide generator's dedup claim. -/

/-- Number of `<channel>` records with a given id among the emitted items. -/
def countChannels (id : String) (items : List XmlItem) : Nat :=
  items.countP (fun it =>
    match it with
    | XmlItem.channel i _ _ => i == id
    | XmlItem.programme _ _ _ _ _ _ _ => false)

theorem countChannels_append (id : String) (a b : List XmlItem) :
    countChannels id (a ++ b) = countChannels id a + countChannels id b :=
  List.countP_append _ _ _

theorem countChannels_channel (id cid dn : String) (ic : Option String) :
    countChannels id [XmlItem.channel cid dn ic] = if cid = id then 1 else 0 := by
  by_cases h : cid = id <;>
    simp [countChannels, List.countP_cons, List.countP_nil, h]

theorem countChannels_programme (id a b c t de cg : String) (ic : Option String) :
    countChannels id [XmlItem.programme a b c t de ic cg] = 0 := by
  simp [countChannels, List.countP_cons, List.countP_nil]

theorem xmltvStep_seen (cat : PCategory) (s : PStream)
    (acc : List String × List XmlItem) (id : String) :
    id ∈ (xmltvStep cat acc s).1 ↔
      id ∈ acc.1 ∨ (s.name ≠ "" ∧ xmltvChannelId s.name s.starts_at = id) := by
  unfold xmltvStep
  by_cases hslug : slugify s.name = ""
  · rw [if_pos hslug]
    have hname : s.name = "" := (slugify_eq_empty_iff s.name).1 hslug
    simp [hname]
  · rw [if_neg hslug]
    dsimp only []
    have hname : s.name ≠ "" := fun h => hslug ((slugify_eq_empty_iff s.name).2 h)
    by_cases hseen : xmltvChannelId s.name s.starts_at ∈ acc.1
    · rw [if_pos hseen]
      have htail : (id ∈ acc.1) ↔
          id ∈ acc.1 ∨ (s.name ≠ "" ∧ xmltvChannelId s.name s.starts_at = id) := by
        constructor
        · exact Or.inl
        · rintro (h | ⟨_, rfl⟩)
          · exact h
          · exact hseen
      split
      · exact htail
      · exact htail
    · rw [if_neg hseen]
      have htail : (id ∈ xmltvChannelId s.name s.starts_at :: acc.1) ↔
          id ∈ acc.1 ∨ (s.name ≠ "" ∧ xmltvChannelId s.name s.starts_at = id) := by
        rw [List.mem_cons]
        constructor
        · rintro (rfl | h)
          · exact Or.inr ⟨hname, rfl⟩
          · exact Or.inl h
        · rintro (h | ⟨_, rfl⟩)
          · exact Or.inr h
          · exact Or.inl rfl
      split
      · exact htail
      · exact htail

theorem xmltvStep_count (cat : PCategory) (s : PStream)
    (acc : List String × List XmlItem) (id : String)
    (hinv : countChannels id acc.2 = if id ∈ acc.1 then 1 else 0) :
    countChannels id (xmltvStep cat acc s).2 =
      if id ∈ (xmltvStep cat acc s).1 then 1 else 0 := by
  unfold xmltvStep
  by_cases hslug : slugify s.name = ""
  · rw [if_pos hslug]; exact hinv
  · rw [if_neg hslug]
    dsimp only []
    by_cases hseen : xmltvChannelId s.name s.starts_at ∈ acc.1
    · rw [if_pos hseen]
      split
      · show countChannels id (acc.2 ++ _) = _
        rw [countChannels_append, countChannels_programme, hinv]
        simp
      · exact hinv
    · rw [if_neg hseen]
      have hmain : countChannels id (acc.2 ++
            [XmlItem.channel (xmltvChannelId s.name s.starts_at)
              (if s.name ≠ "" then s.name else "Stream " ++ xmltvChannelId s.name s.starts_at)
              (if s.poster ≠ "" then some s.poster else none)]) =
          if id ∈ xmltvChannelId s.name s.starts_at :: acc.1 then 1 else 0 := by
        rw [countChannels_append, countChannels_channel, hinv]
        by_cases hid : xmltvChannelId s.name s.starts_at = id
        · rw [if_pos hid, if_neg (fun hm => hseen (by rwa [hid])),
            if_pos (by simp [List.mem_cons, hid])]
        · rw [if_neg hid]
          have hiff : (id ∈ xmltvChannelId s.name s.starts_at :: acc.1) ↔ id ∈ acc.1 := by
            rw [List.mem_cons]
            constructor
            · rintro (rfl | h)
              · exact absurd rfl hid
              · exact h
            · exact Or.inr
          by_cases hm : id ∈ acc.1 <;> simp [hm, hiff]
      split
      · show countChannels id (_ ++ _) = _
        rw [countChannels_append, countChannels_programme, hmain]
        simp
      · exact hmain

theorem foldl_xmltvStep_seen (cat : PCategory) (streams : List PStream) :
    ∀ (acc : List String × List XmlItem) (id : String),
      id ∈ (streams.foldl (xmltvStep cat) acc).1 ↔
        id ∈ acc.1 ∨ ∃ s ∈ streams, s.name ≠ "" ∧ xmltvChannelId s.name s.starts_at = id := by
  induction streams with
  | nil => intro acc id; simp
  | cons s rest ih =>
    intro acc id
    rw [List.foldl_cons, ih, xmltvStep_seen]
    constructor
    · rintro ((h | h) | ⟨t, ht, hp⟩)
      · exact Or.inl h
      · exact Or.inr ⟨s, by simp, h⟩
      · exact Or.inr ⟨t, by simp [ht], hp⟩
    · rintro (h | ⟨t, ht, hp⟩)
      · exact Or.inl (Or.inl h)
      · rcases List.mem_cons.1 ht with rfl | ht2
        · exact Or.inl (Or.inr hp)
        · exact Or.inr ⟨t, ht2, hp⟩

theorem foldl_xmltvStep_count (cat : PCategory) (streams : List PStream) :
    ∀ (acc : List String × List XmlItem) (id : String),
      countChannels id acc.2 = (if id ∈ acc.1 then 1 else 0) →
      countChannels id (streams.foldl (xmltvStep cat) acc).2 =
        if id ∈ (streams.foldl (xmltvStep cat) acc).1 then 1 else 0 := by
  induction streams with
  | nil => intro acc id h; exact h
  | cons s rest ih =>
    intro acc id h
    rw [List.foldl_cons]
    exact ih _ id (xmltvStep_count cat s acc id h)

theorem foldl_cats_seen (cats : List PCategory) :
    ∀ (acc : List String × List XmlItem) (id : String),
      id ∈ (cats.foldl (fun acc cat => cat.streams.foldl (xmltvStep cat) acc) acc).1 ↔
        id ∈ acc.1 ∨ ∃ cat ∈ cats, ∃ s ∈ cat.streams,
          s.name ≠ "" ∧ xmltvChannelId s.name s.starts_at = id := by
  induction cats with
  | nil => intro acc id; simp
  | cons cat rest ih =>
    intro acc id
    rw [List.foldl_cons, ih, foldl_xmltvStep_seen]
    constructor
    · rintro ((h | ⟨s, hs, hp⟩) | ⟨c, hc, s, hs, hp⟩)
      · exact Or.inl h
      · exact Or.inr ⟨cat, by simp, s, hs, hp⟩
      · exact Or.inr ⟨c, by simp [hc], s, hs, hp⟩
    · rintro (h | ⟨c, hc, s, hs, hp⟩)
      · exact Or.inl (Or.inl h)
      · rcases List.mem_cons.1 hc with rfl | hc2
        · exact Or.inl (Or.inr ⟨s, hs, hp⟩)
        · exact Or.inr ⟨c, hc2, s, hs, hp⟩

theorem foldl_cats_count (cats : List PCategory) :
    ∀ (acc : List String × List XmlItem) (id : String),
      countChannels id acc.2 = (if id ∈ acc.1 then 1 else 0) →
      countChannels id
          (cats.foldl (fun acc cat => cat.streams.foldl (xmltvStep cat) acc) acc).2 =
        if id ∈ (cats.foldl (fun acc cat => cat.streams.foldl (xmltvStep cat) acc) acc).1
        then 1 else 0 := by
  induction cats with
  | nil => intro acc id h; exact h
  | cons cat rest ih =>
    intro acc id h
    rw [List.foldl_cons]
    exact ih _ id (foldl_xmltvStep_count cat cat.streams acc id h)

/-! Claim theorems. -/

/-- C3: the Playlist Generator (lines 277-280) and the Guide Generator
(lines 330-333) both compute the channel identifier as the SHA-256 hash of
`"{name}_{start_time_or_0}"` interpreted as an unsigned big integer, taken
mod 10^10 and rendered as a decimal string — the spec's hash policy — and
they agree, so a stream's guide channel id always equals its playlist
tvg-id.  Both are functions of the name and start time alone. -/
theorem C3_channel_identifier_policy (name : String) (starts_at : Option Int) :
    m3uTvgId name starts_at = specChannelIdentifier name starts_at ∧
    xmltvChannelId name starts_at = m3uTvgId name starts_at := by
  constructor
  · unfold m3uTvgId specChannelIdentifier
    dsimp only []
    rw [intOfHex_hexdigest _ (sha256Words_lt _)]
  · rfl

/-- C5 counterexample: the input 0 is present and parses as the integer 0,
yet the Time Formatter returns the empty string (line 56 treats every falsy
input as missing), so the formatter does not return a timestamp string for
every present, integer-parsing input. -/
theorem C5_cex_zero_input :
    format_xmltv_time (PyVal.vint 0) = "" ∧ PyVal.vint 0 ≠ PyVal.vnone ∧
      pyToInt (PyVal.vint 0) = some 0 := by decide

/-- C5 (amended): the Time Formatter never raises (it is total); it returns
the empty string exactly when the input is falsy (missing, zero or an empty
string), fails to parse as an integer, or is outside `fromtimestamp`'s
representable range; on every truthy input that parses to an in-range epoch
value it returns the formatted `YYYYMMDDHHMMSS +0000` string. -/
theorem C5_formatter_characterization (v : PyVal) :
    (format_xmltv_time v = "" ↔
      (pyTruthy v = false ∨ pyToInt v = none ∨
        ∃ n, pyToInt v = some n ∧ (n < MIN_TS ∨ MAX_TS < n))) ∧
    (∀ n, pyToInt v = some n → pyTruthy v = true → MIN_TS ≤ n → n ≤ MAX_TS →
      format_xmltv_time v = fmtEpoch n) := by
  constructor
  · unfold format_xmltv_time
    by_cases ht : pyTruthy v = false
    · simp [ht]
    · rw [if_neg ht]
      cases hp : pyToInt v with
      | none => simp [ht]
      | some n =>
        dsimp only []
        by_cases hr : MIN_TS ≤ n ∧ n ≤ MAX_TS
        · rw [if_pos hr]
          constructor
          · intro h; exact absurd h (fmtEpoch_ne_empty n)
          · rintro (h | h | ⟨m, hm, hout⟩)
            · exact absurd h ht
            · exact Option.noConfusion h
            · injection hm with hm
              subst hm
              rcases hout with hout | hout
              · exact absurd hr.1 (by omega)
              · exact absurd hr.2 (by omega)
        · rw [if_neg hr]
          constructor
          · intro _
            right; right
            refine ⟨n, rfl, ?_⟩
            unfold MIN_TS MAX_TS at hr ⊢
            omega
          · intro _; rfl
  · intro n hpn htr hmin hmax
    unfold format_xmltv_time
    rw [if_neg (by simp [htr]), hpn]
    dsimp only []
    rw [if_pos ⟨hmin, hmax⟩]

/-- C7: the Guide Generator emits exactly one channel record per distinct
channel identifier among the streams with a non-empty name: the count of
channel records carrying a given id is 1 when some usable stream has that
id and 0 otherwise, no matter how many streams share the id — a recurring
id contributes at most a programme record, never a second channel
record. -/
theorem C7_guide_channel_dedup (snap : Snapshot) (id : String) :
    countChannels id (generate_xmltv snap) =
      if ∃ cat ∈ snap.categories, ∃ s ∈ cat.streams,
          s.name ≠ "" ∧ xmltvChannelId s.name s.starts_at = id
      then 1 else 0 := by
  unfold generate_xmltv
  rw [foldl_cats_count snap.categories ([], []) id
    (by simp [countChannels, List.countP_nil])]
  have h2 : id ∈ (List.foldl (fun acc cat => List.foldl (xmltvStep cat) acc cat.streams)
      ([], []) snap.categories).1 ↔
      ∃ cat ∈ snap.categories, ∃ s ∈ cat.streams,
        s.name ≠ "" ∧ xmltvChannelId s.name s.starts_at = id := by
    rw [foldl_cats_seen snap.categories ([], []) id]
    simp
  rw [if_congr h2 rfl rfl]

/-- C2 (amended): when the catalog fetch fails — a transport exception, a
4xx/5xx status (exactly 400-599, what `raise_for_status` raises on), an
unparseable body, or a body whose success flag is falsy — the refresh
publishes no state at all and leaves the previous snapshot exactly as it
was. -/
theorem C2_failed_refresh_keeps_snapshot (st : BridgeState) (result : CatalogFetchResult)
    (fetcher : Int → Option String) (now : Int)
    (h : catalogFetchFailed result = true) :
    fetchStates st result fetcher now = [] ∧ fetchFinal st result fetcher now = st := by
  have hempty : fetchStates st result fetcher now = [] := by
    cases result with
    | exc => rfl
    | resp status body =>
      unfold catalogFetchFailed at h
      unfold fetchStates
      dsimp only [] at h ⊢
      by_cases hst : 400 ≤ status ∧ status < 600
      · rw [if_pos hst]
      · rw [if_neg hst]
        cases body with
        | none => rfl
        | some d =>
          have hsucc : d.success = false := by
            simp [hst] at h
            exact h
          dsimp only []
          rw [hsucc]
          rfl
  refine ⟨hempty, ?_⟩
  unfold fetchFinal
  rw [hempty]
  rfl

/-- C2 witness: a 500 response aborts the cycle and the previous snapshot
survives untouched. -/
theorem C2_failed_refresh_keeps_snapshot_witness :
    fetchStates { cached_data := none, cached_mpegts_urls := [("9", "old")], last_fetch_time := 5 }
        (CatalogFetchResult.resp 500 none) (fun _ => none) 77 = [] ∧
      fetchFinal { cached_data := none, cached_mpegts_urls := [("9", "old")], last_fetch_time := 5 }
        (CatalogFetchResult.resp 500 none) (fun _ => none) 77 =
        { cached_data := none, cached_mpegts_urls := [("9", "old")], last_fetch_time := 5 } :=
  C2_failed_refresh_keeps_snapshot _ _ _ _ (by decide)

/-- C2 counterexample: a 301 response — not a 2xx — whose body nonetheless
parses with success true is not treated as a failure by the code
(`raise_for_status` raises only for 4xx/5xx), and the snapshot changes. -/
theorem C2_cex_redirect_status :
    fetchFinal { cached_data := none, cached_mpegts_urls := [], last_fetch_time := 0 }
        (CatalogFetchResult.resp 301 (some { success := true, streams := [] }))
        (fun _ => none) 7 ≠
      { cached_data := none, cached_mpegts_urls := [], last_fetch_time := 0 } ∧
    ((301 : Nat) < 200 ∨ (299 : Nat) < 301) := by decide

/-- Concrete previous state for the refresh-cycle counterexamples: a
non-empty detail-URL cache left by an earlier cycle. -/
def c1Old : BridgeState :=
  { cached_data := none, cached_mpegts_urls := [("9", "old")], last_fetch_time := 5 }

/-- Concrete successful catalog body with a single stream of id 1. -/
def c1Data : CatalogData :=
  { success := true, streams := [{ category := some "NBA", streams :=
      [{ id := some 1, name := "A", poster := "", category_name := none, tag := "",
         starts_at := none, ends_at := none }] }] }

/-- Concrete detail-fetch oracle answering only for stream 1. -/
def c1Fetcher : Int → Option String := fun n => if n = 1 then some "u" else none

/-- C1 counterexample: on this successful refresh the published trace has
four states; the first pairs the new Catalog with the PREVIOUS cycle's
Detail-URL Cache `[("9", "old")]`, and the cache only reaches its new value
`[("1", "u")]` in the last state — so the Catalog and the Detail-URL Cache
are not replaced in one atomic snapshot swap, and the new Catalog is
published before the new Detail-URL Cache is built. -/
theorem C1_cex_nonatomic_swap :
    fetchStates c1Old (CatalogFetchResult.resp 200 (some c1Data)) c1Fetcher 77 =
      [{ cached_data := some c1Data, cached_mpegts_urls := [("9", "old")], last_fetch_time := 5 },
       { cached_data := some c1Data, cached_mpegts_urls := [("9", "old")], last_fetch_time := 77 },
       { cached_data := some c1Data, cached_mpegts_urls := [], last_fetch_time := 77 },
       { cached_data := some c1Data, cached_mpegts_urls := [("1", "u")], last_fetch_time := 77 }] ∧
    c1Old.cached_mpegts_urls ≠ [("1", "u")] := by decide

theorem foldl_insertStates (l : List (String × String)) :
    ∀ st : BridgeState, (insertStates st l).foldl (fun _ s => s) st =
      { st with cached_mpegts_urls :=
          l.foldl (fun d kv => dictInsert kv.1 kv.2 d) st.cached_mpegts_urls } := by
  induction l with
  | nil => intro st; rfl
  | cons kv rest ih =>
    intro st
    show (insertStates st (kv :: rest)).foldl (fun _ s => s) st = _
    unfold insertStates
    dsimp only []
    rw [List.foldl_cons]
    rw [ih { st with cached_mpegts_urls := dictInsert kv.1 kv.2 st.cached_mpegts_urls }]
    rfl

/-- C1 (amended): a successful refresh publishes piecewise rather than in
one atomic snapshot swap: the first published state carries the new Catalog
with the previous cycle's Detail-URL Cache and timestamp; then the
timestamp is updated; then the Detail-URL Cache is cleared and refilled one
entry at a time; only the final state pairs the new Catalog with its fully
built Detail-URL Cache. -/
theorem C1_piecewise_publication (st : BridgeState) (status : Nat) (d : CatalogData)
    (fetcher : Int → Option String) (now : Int)
    (hst : status < 400) (hs : d.success = true) :
    fetchStates st (CatalogFetchResult.resp status (some d)) fetcher now =
      { st with cached_data := some d } ::
      { st with cached_data := some d, last_fetch_time := now } ::
      { st with cached_data := some d, last_fetch_time := now, cached_mpegts_urls := [] } ::
      insertStates
        { st with cached_data := some d, last_fetch_time := now, cached_mpegts_urls := [] }
        (mpegtsInserts fetcher d.streams) ∧
    fetchFinal st (CatalogFetchResult.resp status (some d)) fetcher now =
      { cached_data := some d,
        cached_mpegts_urls := buildCache (mpegtsInserts fetcher d.streams),
        last_fetch_time := now } := by
  have htrace : fetchStates st (CatalogFetchResult.resp status (some d)) fetcher now =
      { st with cached_data := some d } ::
      { st with cached_data := some d, last_fetch_time := now } ::
      { st with cached_data := some d, last_fetch_time := now, cached_mpegts_urls := [] } ::
      insertStates
        { st with cached_data := some d, last_fetch_time := now, cached_mpegts_urls := [] }
        (mpegtsInserts fetcher d.streams) := by
    unfold fetchStates
    dsimp only []
    rw [if_neg (by omega), hs]
    rfl
  refine ⟨htrace, ?_⟩
  unfold fetchFinal
  rw [htrace]
  rw [List.foldl_cons, List.foldl_cons, List.foldl_cons]
  rw [foldl_insertStates]
  rfl

/-- C1 witness: the amended piecewise-publication theorem at the concrete
refresh of the counterexample. -/
theorem C1_piecewise_publication_witness :
    fetchStates c1Old (CatalogFetchResult.resp 200 (some c1Data)) c1Fetcher 77 =
      { c1Old with cached_data := some c1Data } ::
      { c1Old with cached_data := some c1Data, last_fetch_time := 77 } ::
      { c1Old with cached_data := some c1Data, last_fetch_time := 77, cached_mpegts_urls := [] } ::
      insertStates
        { c1Old with cached_data := some c1Data, last_fetch_time := 77, cached_mpegts_urls := [] }
        (mpegtsInserts c1Fetcher c1Data.streams) ∧
    fetchFinal c1Old (CatalogFetchResult.resp 200 (some c1Data)) c1Fetcher 77 =
      { cached_data := some c1Data,
        cached_mpegts_urls := buildCache (mpegtsInserts c1Fetcher c1Data.streams),
        last_fetch_time := 77 } :=
  C1_piecewise_publication c1Old 200 c1Data c1Fetcher 77 (by decide) (by decide)

/-- Snapshot of the spec's end-to-end scenario 1: one category `NBA` with
one stream, and a Detail-URL Cache entry for it. -/
def scenario1Snap : Snapshot :=
  { categories := [{ category := some "NBA", streams :=
      [{ id := some 1, name := "Lakers vs Celtics", poster := "p.png",
         category_name := none, tag := "", starts_at := some 1700000000,
         ends_at := some 1700010000 }] }],
    cached_mpegts_urls := [("1", "http://x/stream.ts")] }

/-- C4 counterexample: on the scenario-1 snapshot the programme record's
start and stop are `20231114221320 +0000` and `20231115010000 +0000`
(epoch 1700000000 is 2023-11-14T22:13:20Z), not the claimed
`20231114222013 +0000` / `20231115010013 +0000`. -/
theorem C4_cex_programme_times :
    generate_xmltv scenario1Snap =
      [XmlItem.channel "7782732900" "Lakers vs Celtics" (some "p.png"),
       XmlItem.programme "20231114221320 +0000" "20231115010000 +0000" "7782732900"
         "Lakers vs Celtics" "NBA" (some "p.png") "NBA"] ∧
    ("20231114221320 +0000" : String) ≠ "20231114222013 +0000" ∧
    ("20231115010000 +0000" : String) ≠ "20231115010013 +0000" := by decide

/-- C4 (amended): on the scenario-1 snapshot the playlist is exactly
`#EXTM3U`, one `#EXTINF` line with `group-title="NBA"`, and the cached
playback URL; the guide holds exactly one channel record and one programme
record with start `20231114221320 +0000` and stop `20231115010000 +0000`. -/
theorem C4_scenario1_outputs :
    generate_m3u scenario1Snap =
      ["#EXTM3U",
       "#EXTINF:-1 tvg-id=\"7782732900\" tvg-name=\"Lakers vs Celtics\" tvg-logo=\"p.png\" group-title=\"NBA\",Lakers vs Celtics",
       "http://x/stream.ts"] ∧
    generate_xmltv scenario1Snap =
      [XmlItem.channel "7782732900" "Lakers vs Celtics" (some "p.png"),
       XmlItem.programme "20231114221320 +0000" "20231115010000 +0000" "7782732900"
         "Lakers vs Celtics" "NBA" (some "p.png") "NBA"] := by decide

/-- C10: a stream whose id is the integer 0 is falsy in every guard the
source applies to ids: the refresh loop never calls the detail fetcher for
id 0 and never inserts the key "0" into the rebuilt Detail-URL Cache, and
the playlist generator emits no lines for such a stream whatever the cache
holds (its URL conditional takes the `else None` branch, so no lookup is
performed). -/
theorem C10_zero_id_treated_missing (cats : List PCategory) (fetcher : Int → Option String)
    (urls : List (String × String)) (category_name : String) (s : PStream)
    (h : s.id = some 0) :
    (0 : Int) ∉ detailCalls cats ∧
    "0" ∉ (buildCache (mpegtsInserts fetcher cats)).map Prod.fst ∧
    m3uStreamLines urls category_name s = [] := by
  refine ⟨?_, ?_, ?_⟩
  · intro hmem
    rcases concatMap_mem.1 hmem with ⟨c, hc, hmem2⟩
    rcases concatMap_mem.1 hmem2 with ⟨t, ht, hmem3⟩
    cases hid : t.id with
    | none => rw [hid] at hmem3; simp at hmem3
    | some n =>
      rw [hid] at hmem3
      dsimp only [] at hmem3
      by_cases hn : n = 0
      · rw [if_neg (by simp [hn])] at hmem3
        simp at hmem3
      · rw [if_pos hn] at hmem3
        simp at hmem3
        exact hn hmem3.symm
  · intro hmem
    have h2 := mem_keys_buildCache hmem
    rcases List.mem_map.1 h2 with ⟨p, hp, hfst⟩
    rcases concatMap_mem.1 hp with ⟨c, hc, hp2⟩
    rcases concatMap_mem.1 hp2 with ⟨t, ht, hp3⟩
    cases hid : t.id with
    | none => rw [hid] at hp3; simp at hp3
    | some n =>
      rw [hid] at hp3
      dsimp only [] at hp3
      by_cases hn : n = 0
      · rw [if_neg (by simp [hn])] at hp3
        simp at hp3
      · rw [if_pos hn] at hp3
        cases hf : fetcher n with
        | none => rw [hf] at hp3; simp at hp3
        | some url =>
          rw [hf] at hp3
          dsimp only [] at hp3
          by_cases hu : url = ""
          · rw [if_neg (by simp [hu])] at hp3
            simp at hp3
          · rw [if_pos hu] at hp3
            simp at hp3
            rw [hp3] at hfst
            exact pyIntStr_ne_zero hn hfst
  · unfold m3uStreamLines
    rw [h]
    simp

/-- C10 witness: the zero-id theorem at a concrete catalog whose only
stream has id 0, a fetcher that would answer for it, and a cache that even
contains a "0" key. -/
theorem C10_zero_id_treated_missing_witness :
    (0 : Int) ∉ detailCalls [{ category := some "C", streams :=
        [{ id := some 0, name := "A", poster := "", category_name := none, tag := "",
           starts_at := none, ends_at := none }] }] ∧
    "0" ∉ (buildCache (mpegtsInserts (fun _ => some "u")
        [{ category := some "C", streams :=
          [{ id := some 0, name := "A", poster := "", category_name := none, tag := "",
             starts_at := none, ends_at := none }] }])).map Prod.fst ∧
    m3uStreamLines [("0", "u")] "C"
        { id := some 0, name := "A", poster := "", category_name := none, tag := "",
          starts_at := none, ends_at := none } = [] :=
  C10_zero_id_treated_missing _ (fun _ => some "u") [("0", "u")] "C" _ rfl

/-- C6: over every snapshot whose Detail-URL Cache is well formed — no key
under the falsy-id spellings "0"/"None", and no empty URL value, which is
all a refresh cycle can build — the playlist generator emits lines for a
stream exactly when the stream's name is non-empty and the cache holds a
URL under the stream's stringified id; otherwise it contributes no line at
all. -/
theorem C6_playlist_entry_iff (snap : Snapshot) (category_name : String) (s : PStream)
    (h0 : dictGet "0" snap.cached_mpegts_urls = none)
    (hN : dictGet "None" snap.cached_mpegts_urls = none)
    (hv : ∀ p ∈ snap.cached_mpegts_urls, p.2 ≠ "") :
    m3uStreamLines snap.cached_mpegts_urls category_name s ≠ [] ↔
      (s.name ≠ "" ∧
        ∃ url, dictGet (pyStrOfOptId s.id) snap.cached_mpegts_urls = some url) := by
  unfold m3uStreamLines
  by_cases hslug : slugify s.name = ""
  · rw [if_pos hslug]
    have hname : s.name = "" := (slugify_eq_empty_iff s.name).1 hslug
    simp [hname]
  · rw [if_neg hslug]
    dsimp only []
    have hname : s.name ≠ "" := fun hh => hslug ((slugify_eq_empty_iff s.name).2 hh)
    cases hid : s.id with
    | none =>
      dsimp only [pyStrOfOptId]
      simp [hN, hname]
    | some n =>
      dsimp only [pyStrOfOptId]
      by_cases hn : n = 0
      · subst hn
        have hps : pyIntStr 0 = "0" := by decide
        rw [if_neg (by simp), hps, h0]
        simp [hname]
      · rw [if_pos hn]
        cases hget : dictGet (pyIntStr n) snap.cached_mpegts_urls with
        | none => simp [hname]
        | some url =>
          have hurl : url ≠ "" := by
            rcases dictGet_mem hget with ⟨p, hp, hpv⟩
            rw [← hpv]
            exact hv p hp
          simp [hname, hurl]

/-- Concrete snapshot for the C6 witness: one cached URL under key "1". -/
def c6Snap : Snapshot := { categories := [], cached_mpegts_urls := [("1", "u")] }

/-- Concrete stream for the C6 witness. -/
def c6Stream : PStream :=
  { id := some 1, name := "A", poster := "", category_name := none, tag := "",
    starts_at := none, ends_at := none }

/-- C6 witness: the entry-iff theorem at a concrete snapshot with a single
cached URL. -/
theorem C6_playlist_entry_iff_witness :
    m3uStreamLines c6Snap.cached_mpegts_urls "NBA" c6Stream ≠ [] ↔
      (c6Stream.name ≠ "" ∧
        ∃ url, dictGet (pyStrOfOptId c6Stream.id) c6Snap.cached_mpegts_urls = some url) :=
  C6_playlist_entry_iff c6Snap "NBA" c6Stream (by decide) (by decide) (by decide)

/-- C8 counterexample: two responses refute the claimed exact condition.
With a 2xx status, success true and `vip_mpegts` present but empty, the
fetcher returns Missing although the claim demands the present value; with
a 301 (non-2xx) status and a well-formed successful body it returns the URL
although the claim demands Missing for every non-2xx status
(`raise_for_status` raises only for statuses 400-599). -/
theorem C8_cex_truthiness_and_redirect :
    get_mpegts_url "t" (DetailFetchResult.resp 200
        (some { success := true, hasData := true, vip_mpegts := some "" })) =
      (true, none) ∧
    get_mpegts_url "t" (DetailFetchResult.resp 301
        (some { success := true, hasData := true, vip_mpegts := some "u" })) =
      (true, some "u") := by decide

/-- C8 (amended): the detail fetcher issues a request exactly when the
credential is non-empty (an absent credential returns Missing with no
request); it is total, so no exception propagates; and it returns a URL
exactly when the credential is present, the status is outside 400-599 (the
only statuses `raise_for_status` raises on), the body parses with truthy
`success` and truthy `data`, and `vip_mpegts` is present and non-empty —
in every other case it returns Missing. -/
theorem C8_detail_fetcher_characterization (auth_token : String)
    (result : DetailFetchResult) (url : String) :
    ((get_mpegts_url auth_token result).1 = true ↔ auth_token ≠ "") ∧
    ((get_mpegts_url auth_token result).2 = some url ↔
      (auth_token ≠ "" ∧ url ≠ "" ∧
        ∃ status body, result = DetailFetchResult.resp status body ∧
          (status < 400 ∨ 600 ≤ status) ∧
          ∃ d, body = some d ∧ d.success = true ∧ d.hasData = true ∧
            d.vip_mpegts = some url)) := by
  unfold get_mpegts_url
  by_cases ht : auth_token = ""
  · rw [if_pos ht]
    constructor
    · simp [ht]
    · simp [ht]
  · rw [if_neg ht]
    refine ⟨by simp [ht], ?_⟩
    cases result with
    | exc => simp [ht]
    | resp status body =>
      dsimp only []
      by_cases hst : 400 ≤ status ∧ status < 600
      · rw [if_pos hst]
        simp only [DetailFetchResult.resp.injEq]
        constructor
        · intro hcon; exact Option.noConfusion hcon
        · rintro ⟨-, -, status2, body2, ⟨rfl, rfl⟩, hlt, -⟩
          omega
      · rw [if_neg hst]
        cases body with
        | none =>
          simp only [DetailFetchResult.resp.injEq]
          constructor
          · intro hcon; exact Option.noConfusion hcon
          · rintro ⟨-, -, status2, body2, ⟨rfl, rfl⟩, -, d, hd, -⟩
            exact Option.noConfusion hd
        | some d =>
          dsimp only []
          by_cases hsuc : d.success
          · rw [if_pos hsuc]
            by_cases hdata : d.hasData
            · rw [if_pos hdata]
              cases hv : d.vip_mpegts with
              | none =>
                dsimp only []
                simp only [DetailFetchResult.resp.injEq]
                constructor
                · intro hcon; exact Option.noConfusion hcon
                · rintro ⟨-, -, status2, body2, ⟨rfl, rfl⟩, -, d2, hd2, -, -, hvip⟩
                  injection hd2 with hd2
                  subst hd2
                  rw [hv] at hvip
                  exact Option.noConfusion hvip
              | some u =>
                dsimp only []
                by_cases hu : u = ""
                · rw [if_neg (by simp [hu])]
                  simp only [DetailFetchResult.resp.injEq]
                  constructor
                  · intro hcon; exact Option.noConfusion hcon
                  · rintro ⟨-, hurl, status2, body2, ⟨rfl, rfl⟩, -, d2, hd2, -, -, hvip⟩
                    injection hd2 with hd2
                    subst hd2
                    rw [hv] at hvip
                    injection hvip with hvip
                    exact absurd (hvip.symm.trans hu) hurl
                · rw [if_pos hu]
                  simp only [Option.some.injEq, DetailFetchResult.resp.injEq]
                  constructor
                  · rintro rfl
                    exact ⟨ht, hu, status, some d, ⟨rfl, rfl⟩, by omega,
                      d, rfl, hsuc, hdata, hv⟩
                  · rintro ⟨-, -, status2, body2, ⟨rfl, rfl⟩, -, d2, hd2, -, -, hvip⟩
                    injection hd2 with hd2
                    subst hd2
                    rw [hv] at hvip
                    injection hvip with hvip
            · rw [if_neg hdata]
              simp only [DetailFetchResult.resp.injEq]
              constructor
              · intro hcon; exact Option.noConfusion hcon
              · rintro ⟨-, -, status2, body2, ⟨rfl, rfl⟩, -, d2, hd2, -, hdata2, -⟩
                injection hd2 with hd2
                subst hd2
                exact absurd hdata2 hdata
          · rw [if_neg hsuc]
            simp only [DetailFetchResult.resp.injEq]
            constructor
            · intro hcon; exact Option.noConfusion hcon
            · rintro ⟨-, -, status2, body2, ⟨rfl, rfl⟩, -, d2, hd2, hsuc2, -, -⟩
              injection hd2 with hd2
              subst hd2
              exact absurd hsuc2 hsuc

/-- Concrete snapshot for the C9 counterexample: the stream carries the
category-name override "Basketball" inside the category "NBA". -/
def c9Snap : Snapshot :=
  { categories := [{ category := some "NBA", streams :=
      [{ id := some 1, name := "A", poster := "", category_name := some "Basketball",
         tag := "", starts_at := none, ends_at := none }] }],
    cached_mpegts_urls := [("1", "u")] }

/-- C9 counterexample: a stream with a category-name override
`"Basketball"` inside category `"NBA"` still gets `group-title="NBA"` in
its playlist line — the playlist's group-title carries the parent
Category's name and ignores the stream-level override. -/
theorem C9_cex_group_title_ignores_override :
    generate_m3u c9Snap =
      ["#EXTM3U", extinfLine (m3uTvgId "A" none) "A" "" "NBA", "u"] ∧
    (c9Snap.categories.map (fun c => c.streams.map (fun s => s.category_name))) =
      [[some "Basketball"]] ∧
    extinfLine (m3uTvgId "A" none) "A" "" "NBA" ≠
      extinfLine (m3uTvgId "A" none) "A" "" "Basketball" := by decide

/-- C9 (amended): the guide programme's description and category label use
the stream-level category-name override when the key is present, with the
parent Category's name only as fallback; the playlist's group-title always
carries the parent Category's name — the playlist output is independent of
the override, and any entry it emits quotes the parent name. -/
theorem C9_category_name_usage (urls : List (String × String)) (category_name : String)
    (s : PStream) (ov : Option String) (cat : PCategory)
    (acc : List String × List XmlItem) :
    (m3uStreamLines urls category_name { s with category_name := ov } =
      m3uStreamLines urls category_name s) ∧
    (m3uStreamLines urls category_name s = [] ∨
      ∃ url, m3uStreamLines urls category_name s =
        [extinfLine (m3uTvgId s.name s.starts_at)
          (if s.name ≠ "" then s.name else "Stream " ++ m3uTvgId s.name s.starts_at)
          s.poster category_name, url]) ∧
    (xmltvCategoryName cat { s with category_name := some category_name } = category_name) ∧
    (xmltvCategoryName cat { s with category_name := none } = cat.category.getD "Unknown") ∧
    (∀ a b c t de ic cg, XmlItem.programme a b c t de ic cg ∈ (xmltvStep cat acc s).2 →
      XmlItem.programme a b c t de ic cg ∉ acc.2 →
      cg = xmltvCategoryName cat s ∧
        de = (if s.tag ≠ "" then xmltvCategoryName cat s ++ " - " ++ s.tag
              else xmltvCategoryName cat s)) := by
  refine ⟨rfl, ?_, rfl, rfl, ?_⟩
  · unfold m3uStreamLines
    by_cases hslug : slugify s.name = ""
    · rw [if_pos hslug]
      exact Or.inl rfl
    · rw [if_neg hslug]
      dsimp only []
      cases hmu : (match s.id with
        | some n => if n ≠ 0 then dictGet (pyIntStr n) urls else none
        | none => none) with
      | none => exact Or.inl rfl
      | some url =>
        dsimp only []
        by_cases hu : url = ""
        · rw [if_neg (by simp [hu])]
          exact Or.inl rfl
        · rw [if_pos hu]
          exact Or.inr ⟨url, rfl⟩
  · intro a b c t de ic cg hin hout
    unfold xmltvStep at hin
    by_cases hslug : slugify s.name = ""
    · rw [if_pos hslug] at hin
      exact absurd hin hout
    · rw [if_neg hslug] at hin
      dsimp only [] at hin
      by_cases hseen : xmltvChannelId s.name s.starts_at ∈ acc.1
      · rw [if_pos hseen] at hin
        split at hin
        · dsimp only [] at hin
          rcases List.mem_append.1 hin with h1 | h2
          · exact absurd h1 hout
          · simp at h2
            rcases h2 with ⟨-, -, -, -, hde, -, hcg⟩
            refine ⟨hcg, ?_⟩
            rw [hde]
            by_cases htag : s.tag = "" <;> simp [htag]
        · exact absurd hin hout
      · rw [if_neg hseen] at hin
        split at hin
        · dsimp only [] at hin
          rcases List.mem_append.1 hin with h1 | h2
          · rcases List.mem_append.1 h1 with h1a | h1b
            · exact absurd h1a hout
            · simp at h1b
          · simp at h2
            rcases h2 with ⟨-, -, -, -, hde, -, hcg⟩
            refine ⟨hcg, ?_⟩
            rw [hde]
            by_cases htag : s.tag = "" <;> simp [htag]
        · rcases List.mem_append.1 hin with h1 | h2
          · exact absurd h1 hout
          · simp at h2

end PlexRelay
